import Mathlib

/-!
Shallow embedding of `src/penn_chime/presentation.py` (CHIME presentation
layer) and proofs of the specification's claims about it.

Modelling conventions:
* Python floats are modelled as exact rationals (`ℚ`); dates as an integer
  ordinal (`PyDate`).
* A Streamlit widget declaration (`Input` / `NumberInput` / `DateInput` /
  `PercentInput` / `CheckboxInput`) is modelled by the record of arguments it
  forwards to the host widget call (`st.number_input`, `st.date_input`,
  `st.checkbox`): label, initial value, and the keyword arguments that the
  wrapper classes pass through.
* The host UI runtime is modelled by an environment `SidebarEnv` mapping each
  widget call (its full argument record) to the value the widget returns on
  this run.  Calling an `Input` (`__call__`) applies the environment to the
  stored record; `PercentInput.__call__` divides the returned value by 100.
* `display_header` and `display_download_link` are modelled by the data they
  interpolate into their markdown templates (the `.format(...)` argument
  record, resp. the rendered markdown calls).
-/

namespace PennChime

/-- Modelled from the spec: `penn_chime.constants` is not part of the provided
source.  `EPSILON` is the small positive sentinel stored in
`relative_contact_rate` when social distancing is off; only its role as a
sentinel matters to the claims, not its exact magnitude. -/
def EPSILON : ℚ := 1 / 10000000

/-- Modelled from the spec: `penn_chime.constants` is not part of the provided
source.  `FLOAT_INPUT_STEP` is the shared default step for fractional number
inputs; the claims depend only on it being forwarded unchanged. -/
def FLOAT_INPUT_STEP : ℚ := 1 / 1000

/-- Python date modelled as an integer day ordinal. -/
abbrev PyDate := Int

/-- Python runtime errors raised by the modelled code. -/
inductive PyError
  | typeError
  deriving DecidableEq, Repr

/-- Argument record of a `st.number_input` call as assembled by
`Input.__call__` for a `NumberInput`: the label, `value=`, and the kwargs dict
`dict(min_value=..., max_value=..., step=..., format=..., key=...)`. -/
structure NumberInputSpec where
  label : String
  min_value : Option ℚ
  max_value : Option ℚ
  value : Option ℚ
  step : Option ℚ
  format : Option String
  key : Option String
  deriving DecidableEq, Repr

/-- Argument record of a `st.date_input` call (`DateInput`): label, `value=`,
and the kwargs dict `dict(key=...)`. -/
structure DateInputSpec where
  label : String
  value : Option PyDate
  key : Option String
  deriving DecidableEq, Repr

/-- Argument record of a `st.checkbox` call, either through `CheckboxInput`
(label, `value=`, kwargs `dict(key=...)`) or inline
(`st.sidebar.checkbox(label)` / `st.sidebar.checkbox(label, value=...)`). -/
structure CheckboxSpec where
  label : String
  value : Option Bool
  key : Option String
  deriving DecidableEq, Repr

/-- The host widget runtime for one run of the sidebar: for each widget call
(identified by its full argument record) the value the widget returns. -/
structure SidebarEnv where
  number : NumberInputSpec → ℚ
  date : DateInputSpec → PyDate
  checkbox : CheckboxSpec → Bool

/-- `NumberInput.__init__`: packs the constructor arguments into the kwargs
dict and stores the label and value for the eventual `st.number_input` call. -/
def NumberInput.init (label : String) (mn mx v st : Option ℚ)
    (fmt : Option String) (key : Option String) : NumberInputSpec :=
  { label := label, min_value := mn, max_value := mx, value := v,
    step := st, format := fmt, key := key }

/-- `Input.__call__` for a `NumberInput`: perform the stored
`st.number_input` call and return what the widget gives back. -/
def NumberInput.call (env : SidebarEnv) (s : NumberInputSpec) : ℚ :=
  env.number s

/-- `DateInput.__init__`. -/
def DateInput.init (label : String) (v : Option PyDate) (key : Option String) :
    DateInputSpec :=
  { label := label, value := v, key := key }

/-- `Input.__call__` for a `DateInput`. -/
def DateInput.call (env : SidebarEnv) (s : DateInputSpec) : PyDate :=
  env.date s

/-- `CheckboxInput.__init__`. -/
def CheckboxInput.init (label : String) (v : Option Bool)
    (key : Option String) : CheckboxSpec :=
  { label := label, value := v, key := key }

/-- `Input.__call__` for a `CheckboxInput`. -/
def CheckboxInput.call (env : SidebarEnv) (s : CheckboxSpec) : Bool :=
  env.checkbox s

/-- Python `value * 100.0` where `value` may be `None`: multiplying `None` by
a float raises `TypeError`. -/
def pyMul : Option ℚ → ℚ → Except PyError ℚ
  | Option.none, _ => Except.error PyError.typeError
  | Option.some q, r => Except.ok (q * r)

/-- `PercentInput.__init__` exactly as written: it evaluates `value * 100.0`
(raising `TypeError` when `value` is `None`) and forwards label, `min_value`,
`max_value`, the rescaled value, `step`, `format` and `key` unchanged to
`NumberInput.__init__`. -/
def PercentInput.initE (label : String) (mn mx : ℚ) (v : Option ℚ) (st : ℚ)
    (fmt : String) (key : Option String) : Except PyError NumberInputSpec :=
  match pyMul v 100 with
  | Except.error e => Except.error e
  | Except.ok v100 =>
      Except.ok (NumberInput.init label (Option.some mn) (Option.some mx)
        (Option.some v100) (Option.some st) (Option.some fmt) key)

/-- `PercentInput.__init__` on a non-`None` value (the only way it is called
in `display_sidebar`); `PercentInput.initE_some` below proves it agrees with
the fallible constructor. -/
def PercentInput.init (label : String) (mn mx v st : ℚ) (fmt : String)
    (key : Option String) : NumberInputSpec :=
  NumberInput.init label (Option.some mn) (Option.some mx)
    (Option.some (v * 100)) (Option.some st) (Option.some fmt) key

/-- `PercentInput.__init__` with every defaulted argument at its Python
default: `min_value=0.0`, `max_value=100.0`, `step=FLOAT_INPUT_STEP`,
`format="%f"`, `key=None`. -/
def PercentInput.initDefault (label : String) (v : ℚ) : NumberInputSpec :=
  PercentInput.init label 0 100 v FLOAT_INPUT_STEP "%f" Option.none

/-- `PercentInput.__call__`: `super().__call__() / 100.0`. -/
def PercentInput.call (env : SidebarEnv) (s : NumberInputSpec) : ℚ :=
  NumberInput.call env s / 100

/-- `Disposition` (external, `penn_chime.parameters`): a rate and a number of
days for one severity bucket.  Modelled from the spec. -/
structure Disposition where
  rate : ℚ
  days : ℚ
  deriving DecidableEq, Repr

/-- `Parameters` (external, `penn_chime.parameters`): the configuration bag
rebuilt by `display_sidebar`, with exactly the fields that `display_sidebar`
and `display_header` read or construct.  Modelled from the spec. -/
structure Parameters where
  current_hospitalized : ℚ
  hospitalized : Disposition
  icu : Disposition
  relative_contact_rate : ℚ
  mitigation_date : Option PyDate
  ventilated : Disposition
  current_date : PyDate
  date_first_hospitalized : Option PyDate
  doubling_time : Option ℚ
  infectious_days : ℚ
  market_share : ℚ
  max_y_axis : Option ℚ
  n_days : ℚ
  population : ℚ
  deriving DecidableEq, Repr

/-- `SimSirModel` (external, `penn_chime.models`): the derived scalars that
`display_header` reads.  Modelled from the spec. -/
structure Model where
  infected : ℚ
  r_naught : ℚ
  r_t : ℚ
  doubling_time_t : ℚ
  daily_growth_rate : ℚ
  daily_growth_rate_t : ℚ
  deriving DecidableEq, Repr

/-! Widget declarations of `display_sidebar` (presentation.py lines 175-281),
each the record of arguments its `Input` wrapper stores for the host call.
Arguments the Python call site omits are written out at their Python default
(`None` for `NumberInput`/`DateInput` arguments; `0.0`, `100.0`,
`FLOAT_INPUT_STEP`, `"%f"`, `None` for `PercentInput` arguments). -/

def current_hospitalized_input (d : Parameters) : NumberInputSpec :=
  NumberInput.init "Currently hospitalized COVID-19 patients"
    (Option.some 0) Option.none (Option.some d.current_hospitalized)
    (Option.some 1) (Option.some "%i") Option.none

def n_days_input (d : Parameters) : NumberInputSpec :=
  NumberInput.init "Number of days to project"
    (Option.some 30) Option.none (Option.some d.n_days)
    (Option.some 1) (Option.some "%i") Option.none

def doubling_time_input (d : Parameters) : NumberInputSpec :=
  NumberInput.init "Doubling time in days (up to today)"
    (Option.some (1/2)) Option.none d.doubling_time
    (Option.some (1/4)) (Option.some "%f") Option.none

def current_date_input (d : Parameters) : DateInputSpec :=
  DateInput.init "Current date (default is today)"
    (Option.some d.current_date) Option.none

def date_first_hospitalized_input (d : Parameters) : DateInputSpec :=
  DateInput.init "Date of first hospitalized case (enter this date to have CHIME estimate the initial doubling time)"
    d.date_first_hospitalized Option.none

def mitigation_date_input (d : Parameters) : DateInputSpec :=
  DateInput.init "Date of social distancing measures effect (may be delayed from implementation)"
    d.mitigation_date Option.none

def relative_contact_pct_input (d : Parameters) : NumberInputSpec :=
  PercentInput.init "Social distancing (% reduction in social contact going forward)"
    0 100 d.relative_contact_rate 1 "%f" Option.none

def hospitalized_pct_input (d : Parameters) : NumberInputSpec :=
  PercentInput.initDefault "Hospitalization %(total infections)" d.hospitalized.rate

def icu_pct_input (d : Parameters) : NumberInputSpec :=
  PercentInput.init "ICU %(total infections)" 0 100 d.icu.rate (1/20) "%f" Option.none

def ventilated_pct_input (d : Parameters) : NumberInputSpec :=
  PercentInput.initDefault "Ventilated %(total infections)" d.ventilated.rate

def hospitalized_days_input (d : Parameters) : NumberInputSpec :=
  NumberInput.init "Average hospital length of stay (in days)"
    (Option.some 0) Option.none (Option.some d.hospitalized.days)
    (Option.some 1) (Option.some "%i") Option.none

def icu_days_input (d : Parameters) : NumberInputSpec :=
  NumberInput.init "Average days in ICU"
    (Option.some 0) Option.none (Option.some d.icu.days)
    (Option.some 1) (Option.some "%i") Option.none

def ventilated_days_input (d : Parameters) : NumberInputSpec :=
  NumberInput.init "Average days on ventilator"
    (Option.some 0) Option.none (Option.some d.ventilated.days)
    (Option.some 1) (Option.some "%i") Option.none

def market_share_pct_input (d : Parameters) : NumberInputSpec :=
  PercentInput.init "Hospital market share (%)"
    (1/2) 100 d.market_share FLOAT_INPUT_STEP "%f" Option.none

def population_input (d : Parameters) : NumberInputSpec :=
  NumberInput.init "Regional population"
    (Option.some 1) Option.none (Option.some d.population)
    (Option.some 1) (Option.some "%i") Option.none

def infectious_days_input (d : Parameters) : NumberInputSpec :=
  NumberInput.init "Infectious days"
    (Option.some 0) Option.none (Option.some d.infectious_days)
    (Option.some 1) (Option.some "%i") Option.none

def max_y_axis_set_input : CheckboxSpec :=
  CheckboxInput.init "Set the Y-axis on graphs to a static value"
    Option.none Option.none

def max_y_axis_input : NumberInputSpec :=
  NumberInput.init "Y-axis static value"
    Option.none Option.none (Option.some 500)
    (Option.some 25) (Option.some "%i") Option.none

/-- Inline `st.sidebar.checkbox("I know the date of the first hospitalized
case.")` (line 306): no initial value, no key. -/
def first_hospitalized_checkbox : CheckboxSpec :=
  { label := "I know the date of the first hospitalized case.",
    value := Option.none, key := Option.none }

/-- Inline `st.sidebar.checkbox("Social distancing measures have been
implemented", value=(d.relative_contact_rate > EPSILON))` (lines 315-317). -/
def social_distancing_checkbox (d : Parameters) : CheckboxSpec :=
  { label := "Social distancing measures have been implemented",
    value := Option.some (decide (d.relative_contact_rate > EPSILON)),
    key := Option.none }

/-- `display_sidebar` (lines 168-367): reads every widget through the host
environment and reassembles the collected values into a fresh `Parameters`.
The markdown section headers it also emits carry no data and are omitted. -/
def display_sidebar (env : SidebarEnv) (d : Parameters) : Parameters :=
  let population := NumberInput.call env (population_input d)
  let market_share := PercentInput.call env (market_share_pct_input d)
  let current_hospitalized := NumberInput.call env (current_hospitalized_input d)
  let know_first := CheckboxInput.call env first_hospitalized_checkbox
  let date_first_hospitalized :=
    if know_first then Option.some (DateInput.call env (date_first_hospitalized_input d))
    else Option.none
  let doubling_time :=
    if know_first then Option.none
    else Option.some (NumberInput.call env (doubling_time_input d))
  let distancing := CheckboxInput.call env (social_distancing_checkbox d)
  let mitigation_date :=
    if distancing then Option.some (DateInput.call env (mitigation_date_input d))
    else Option.none
  let relative_contact_rate :=
    if distancing then PercentInput.call env (relative_contact_pct_input d)
    else EPSILON
  let hospitalized_rate := PercentInput.call env (hospitalized_pct_input d)
  let icu_rate := PercentInput.call env (icu_pct_input d)
  let ventilated_rate := PercentInput.call env (ventilated_pct_input d)
  let infectious_days := NumberInput.call env (infectious_days_input d)
  let hospitalized_days := NumberInput.call env (hospitalized_days_input d)
  let icu_days := NumberInput.call env (icu_days_input d)
  let ventilated_days := NumberInput.call env (ventilated_days_input d)
  let n_days := NumberInput.call env (n_days_input d)
  let max_y_axis_set := CheckboxInput.call env max_y_axis_set_input
  let max_y_axis :=
    if max_y_axis_set then Option.some (NumberInput.call env max_y_axis_input)
    else Option.none
  let current_date := DateInput.call env (current_date_input d)
  { current_hospitalized := current_hospitalized,
    hospitalized := { rate := hospitalized_rate, days := hospitalized_days },
    icu := { rate := icu_rate, days := icu_days },
    relative_contact_rate := relative_contact_rate,
    mitigation_date := mitigation_date,
    ventilated := { rate := ventilated_rate, days := ventilated_days },
    current_date := current_date,
    date_first_hospitalized := date_first_hospitalized,
    doubling_time := doubling_time,
    infectious_days := infectious_days,
    market_share := market_share,
    max_y_axis := max_y_axis,
    n_days := n_days,
    population := population }

/-- Warning paragraph interpolated by `display_header` when the estimated
infections exceed the regional population (presentation.py line 38). -/
def INFECTED_POPULATION_WARNING : String :=
  "(Warning: The number of estimated infections is greater than the total regional population. Please verify the values entered in the sidebar.)"

/-- The record of values `display_header` interpolates into its narrative
markdown template via `.format(...)` (presentation.py lines 79-99), one field
per keyword argument of the `format` call. -/
structure HeaderFormatArgs where
  total_infections : ℚ
  current_hosp : ℚ
  hosp_rate : ℚ
  S : ℚ
  market_share : ℚ
  recovery_days : ℚ
  r_naught : ℚ
  doubling_time : Option ℚ
  relative_contact_rate : ℚ
  r_t : ℚ
  doubling_time_t : ℚ
  impact_statement : String
  daily_growth : ℚ
  daily_growth_t : ℚ
  infected_population_warning_str : String
  deriving DecidableEq, Repr

/-- `display_header` (lines 35-102), modelled by the data it interpolates:
the warning string computed at lines 37-41 and the `.format` arguments of the
main narrative markdown call at lines 79-99. -/
def display_header (m : Model) (p : Parameters) : HeaderFormatArgs :=
  let infected_population_warning_str :=
    if m.infected > p.population then INFECTED_POPULATION_WARNING else ""
  { total_infections := m.infected,
    current_hosp := p.current_hospitalized,
    hosp_rate := p.hospitalized.rate,
    S := p.population,
    market_share := p.market_share,
    recovery_days := p.infectious_days,
    r_naught := m.r_naught,
    doubling_time := p.doubling_time,
    relative_contact_rate := p.relative_contact_rate,
    r_t := m.r_t,
    doubling_time_t := |m.doubling_time_t|,
    impact_statement :=
      if m.r_t < 1 then "halves the infections every"
      else "reduces the doubling time to",
    daily_growth := m.daily_growth_rate * 100,
    daily_growth_t := m.daily_growth_rate_t * 100,
    infected_population_warning_str := infected_population_warning_str }

/-- Standard base64 alphabet. -/
def BASE64_ALPHABET : String :=
  "ABCDEFGHIJKLMNOPQRSTUVWXYZabcdefghijklmnopqrstuvwxyz0123456789+/"

/-- Character of the base64 alphabet at a 6-bit index. -/
def b64char (n : Nat) : Char := BASE64_ALPHABET.toList.getD n '='

/-- Base64-encode a byte list (bytes as `Nat` values below 256), with `=`
padding. -/
def base64Go : List Nat → List Char
  | [] => []
  | [a] => [b64char (a / 4), b64char (a % 4 * 16), '=', '=']
  | [a, b] =>
      [b64char (a / 4), b64char (a % 4 * 16 + b / 16), b64char (b % 16 * 4), '=']
  | a :: b :: c :: rest =>
      b64char (a / 4) :: b64char (a % 4 * 16 + b / 16) ::
        b64char (b % 16 * 4 + c / 64) :: b64char (c % 64) :: base64Go rest

/-- UTF-8 encoding of one code point, as a list of bytes (`Nat` values below
256). -/
def charUtf8 (c : Char) : List Nat :=
  let n := c.toNat
  if n < 128 then [n]
  else if n < 2048 then [192 + n / 64, 128 + n % 64]
  else if n < 65536 then [224 + n / 4096, 128 + n / 64 % 64, 128 + n % 64]
  else [240 + n / 262144, 128 + n / 4096 % 64, 128 + n / 64 % 64, 128 + n % 64]

/-- Base64-encode the UTF-8 bytes of a string. -/
def base64Encode (s : String) : String :=
  String.mk (base64Go (s.toList.map charUtf8).flatten)

/-- Modelled from the spec: `pandas.DataFrame` is external; only its CSV
serialization (`to_csv`) is observable here, so a dataframe is modelled by
that CSV text. -/
structure DataFrame where
  csv : String
  deriving DecidableEq, Repr

/-- Modelled from the spec: `dataframe_to_base64` lives in `penn_chime.utils`,
which is not part of the provided source; per the spec it yields "a
base64-encoded CSV" of the dataframe. -/
def dataframe_to_base64 (df : DataFrame) : String := base64Encode df.csv

/-- One `st.markdown(body, ...)` call: its text and whether raw HTML was
permitted (`unsafe_allow_html=True`). -/
structure MarkdownCall where
  body : String
  allow_html : Bool
  deriving DecidableEq, Repr

/-- `display_download_link` (lines 391-400), modelled by the list of markdown
calls it renders: one call whose body is the Python triple-quoted template
(leading newline, eight spaces of indentation, trailing newline) with
`filename` and the base64 CSV interpolated, with raw HTML permitted. -/
def display_download_link (filename : String) (df : DataFrame) :
    List MarkdownCall :=
  let csv := dataframe_to_base64 df
  [ { body := "\n        <a download=\"" ++ filename ++
        "\" href=\"data:file/csv;base64," ++ csv ++ "\">Download " ++
        filename ++ "</a>\n",
      allow_html := true } ]

/-! Concrete example values used by the witness theorems. -/

/-- Example environment: each widget returns its declared initial value
(checkboxes with no initial value return unchecked, date and number widgets
without one return 0 resp. 7). -/
def envEx : SidebarEnv :=
  { number := fun s => s.value.getD 7,
    date := fun s => s.value.getD 0,
    checkbox := fun s => s.value.getD false }

/-- Example environment whose number widgets all return 50. -/
def envPct : SidebarEnv :=
  { number := fun _ => 50,
    date := fun _ => 0,
    checkbox := fun _ => false }

/-- Example defaults object fed to `display_sidebar`, with social distancing
off (`relative_contact_rate = 0`). -/
def dEx : Parameters :=
  { current_hospitalized := 4,
    hospitalized := { rate := 1/10, days := 7 },
    icu := { rate := 1/50, days := 9 },
    relative_contact_rate := 0,
    mitigation_date := Option.none,
    ventilated := { rate := 1/100, days := 10 },
    current_date := 737500,
    date_first_hospitalized := Option.none,
    doubling_time := Option.some 4,
    infectious_days := 14,
    market_share := 3/20,
    max_y_axis := Option.none,
    n_days := 60,
    population := 500000 }

/-- Example model output with `r_t = 1` (the boundary case of the impact
statement) and fewer infections than the population of `dEx`. -/
def mEx : Model :=
  { infected := 1000, r_naught := 2, r_t := 1, doubling_time_t := 6,
    daily_growth_rate := 1/20, daily_growth_rate_t := 1/100 }

/-- Example model output in the halving regime: `r_t < 1` and a negative
underlying doubling time. -/
def mExHalving : Model :=
  { infected := 1000, r_naught := 2, r_t := 1/2, doubling_time_t := -3,
    daily_growth_rate := 1/20, daily_growth_rate_t := -1/100 }

/-! Theorems. -/

/-- Sanity check of the base64 model against a standard vector. -/
theorem base64Encode_example : base64Encode "Man" = "TWFu" := by decide

/-- The fallible `PercentInput.__init__` agrees with the total constructor on
every non-`None` value. -/
theorem PercentInput.initE_some (label : String) (mn mx v st : ℚ)
    (fmt : String) (key : Option String) :
    PercentInput.initE label mn mx (Option.some v) st fmt key
      = Except.ok (PercentInput.init label mn mx v st fmt key) := rfl

/-- Claim C1: in every run of `display_sidebar` exactly one of
`doubling_time` and `date_first_hospitalized` in the returned `Parameters` is
non-null, matching the "I know the date of the first hospitalized case."
checkbox: when it is checked, `date_first_hospitalized` is read from its
`DateInput` and `doubling_time` is `None`; otherwise `doubling_time` is read
from its `NumberInput` and `date_first_hospitalized` is `None`. -/
theorem display_sidebar_doubling_time_exclusive (env : SidebarEnv)
    (d : Parameters) :
    (display_sidebar env d).doubling_time.isSome
        = ! (display_sidebar env d).date_first_hospitalized.isSome
    ∧ (CheckboxInput.call env first_hospitalized_checkbox = true →
        (display_sidebar env d).date_first_hospitalized
            = Option.some (DateInput.call env (date_first_hospitalized_input d))
        ∧ (display_sidebar env d).doubling_time = Option.none)
    ∧ (CheckboxInput.call env first_hospitalized_checkbox = false →
        (display_sidebar env d).doubling_time
            = Option.some (NumberInput.call env (doubling_time_input d))
        ∧ (display_sidebar env d).date_first_hospitalized = Option.none) := by
  cases hc : CheckboxInput.call env first_hospitalized_checkbox <;>
    simp [display_sidebar, hc]

/-- Witness for C1: with the example environment (checkbox unchecked) the
doubling time is read from the widget and the date is `None`. -/
theorem display_sidebar_doubling_time_exclusive_w :
    (display_sidebar envEx dEx).doubling_time
        = Option.some (NumberInput.call envEx (doubling_time_input dEx))
    ∧ (display_sidebar envEx dEx).date_first_hospitalized = Option.none :=
  (display_sidebar_doubling_time_exclusive envEx dEx).2.2 rfl

/-- Claim C2: for every fraction `f` in `[0,1]` supplied to a `PercentInput`,
the value forwarded to the underlying `number_input` widget is `100 * f`, and
when the widget returns that displayed value unchanged,
`PercentInput.__call__` returns `f` exactly (the embedding computes over
exact rationals). -/
theorem PercentInput_round_trip (label : String) (mn mx st : ℚ) (fmt : String)
    (key : Option String) (f : ℚ) (_h0 : 0 ≤ f) (_h1 : f ≤ 1) (env : SidebarEnv)
    (hret : env.number (PercentInput.init label mn mx f st fmt key) = 100 * f) :
    (PercentInput.init label mn mx f st fmt key).value = Option.some (100 * f)
    ∧ PercentInput.call env (PercentInput.init label mn mx f st fmt key) = f := by
  constructor
  · simp [PercentInput.init, NumberInput.init, mul_comm]
  · simp only [PercentInput.call, NumberInput.call]
    rw [hret]
    exact mul_div_cancel_left₀ f (by norm_num)

/-- Witness for C2 at `f = 1/2`: the widget shows 50 and reading 50 back
returns `1/2`. -/
theorem PercentInput_round_trip_w :
    (PercentInput.init "Hospitalization %(total infections)" 0 100 (1/2)
        FLOAT_INPUT_STEP "%f" Option.none).value = Option.some (100 * (1/2 : ℚ))
    ∧ PercentInput.call envPct
        (PercentInput.init "Hospitalization %(total infections)" 0 100 (1/2)
          FLOAT_INPUT_STEP "%f" Option.none) = (1/2 : ℚ) :=
  PercentInput_round_trip _ 0 100 FLOAT_INPUT_STEP "%f" Option.none (1/2)
    (by norm_num) (by norm_num) envPct (by norm_num [envPct])

/-- Claim C3: the infected-population warning string is interpolated into the
header markdown exactly when `m.infected > p.population`, and is the empty
string when `m.infected ≤ p.population`. -/
theorem display_header_warning_iff (m : Model) (p : Parameters) :
    ((display_header m p).infected_population_warning_str
        = INFECTED_POPULATION_WARNING ↔ m.infected > p.population)
    ∧ (m.infected ≤ p.population →
        (display_header m p).infected_population_warning_str = "") := by
  constructor
  · by_cases h : m.infected > p.population <;> simp [display_header, h]
    decide
  · intro hle
    simp [display_header, not_lt.mpr hle]

/-- Witness for C3: with the example values (1000 infected, population
500000) the warning string is empty. -/
theorem display_header_warning_iff_w :
    (display_header mEx dEx).infected_population_warning_str = "" :=
  (display_header_warning_iff mEx dEx).2 (by norm_num [mEx, dEx])

/-- Claim C4: the `impact_statement` interpolated into the mitigation
paragraph is "halves the infections every" when `m.r_t < 1`, and "reduces the
doubling time to" for every `m.r_t ≥ 1`, including `m.r_t = 1`. -/
theorem display_header_impact_statement_cases (m : Model) (p : Parameters) :
    (m.r_t < 1 →
        (display_header m p).impact_statement = "halves the infections every")
    ∧ (1 ≤ m.r_t →
        (display_header m p).impact_statement = "reduces the doubling time to") := by
  constructor
  · intro h
    simp [display_header, h]
  · intro h
    simp [display_header, not_lt.mpr h]

/-- Witness for C4 at the boundary `r_t = 1`: the statement reads "reduces
the doubling time to". -/
theorem display_header_impact_statement_cases_w :
    (display_header mEx dEx).impact_statement = "reduces the doubling time to" :=
  (display_header_impact_statement_cases mEx dEx).2 (by norm_num [mEx])

/-- Claim C5: when the "Social distancing measures have been implemented"
checkbox is unchecked, `display_sidebar` returns `mitigation_date = None` and
`relative_contact_rate = EPSILON`; when it is checked, both are the values
read from their inputs (the rate through the `PercentInput`, divided by
100). -/
theorem display_sidebar_social_distancing (env : SidebarEnv) (d : Parameters) :
    (CheckboxInput.call env (social_distancing_checkbox d) = false →
        (display_sidebar env d).mitigation_date = Option.none
        ∧ (display_sidebar env d).relative_contact_rate = EPSILON)
    ∧ (CheckboxInput.call env (social_distancing_checkbox d) = true →
        (display_sidebar env d).mitigation_date
            = Option.some (DateInput.call env (mitigation_date_input d))
        ∧ (display_sidebar env d).relative_contact_rate
            = PercentInput.call env (relative_contact_pct_input d)) := by
  cases hc : CheckboxInput.call env (social_distancing_checkbox d) <;>
    simp [display_sidebar, hc]

/-- Witness for C5: with the example defaults (`relative_contact_rate = 0`)
the checkbox starts unchecked and the sentinel branch is taken. -/
theorem display_sidebar_social_distancing_w :
    (display_sidebar envEx dEx).mitigation_date = Option.none
    ∧ (display_sidebar envEx dEx).relative_contact_rate = EPSILON :=
  (display_sidebar_social_distancing envEx dEx).1 (by
    have hlt : ¬ (dEx.relative_contact_rate > EPSILON) := by
      norm_num [dEx, EPSILON]
    simp [CheckboxInput.call, envEx, social_distancing_checkbox, hlt])

/-- Claim C6: `PercentInput` forwards `min_value`, `max_value`, `step`,
`format` and `key` to the underlying `number_input` call exactly as given
(with Python defaults `0.0` and `100.0` for min/max); only `value` is
rescaled by 100, and the fraction is not clamped by `PercentInput` itself. -/
theorem PercentInput_forwards_kwargs :
    (∀ (label : String) (mn mx f st : ℚ) (fmt : String) (key : Option String),
        (PercentInput.init label mn mx f st fmt key).label = label
        ∧ (PercentInput.init label mn mx f st fmt key).min_value = Option.some mn
        ∧ (PercentInput.init label mn mx f st fmt key).max_value = Option.some mx
        ∧ (PercentInput.init label mn mx f st fmt key).step = Option.some st
        ∧ (PercentInput.init label mn mx f st fmt key).format = Option.some fmt
        ∧ (PercentInput.init label mn mx f st fmt key).key = key
        ∧ (PercentInput.init label mn mx f st fmt key).value
            = Option.some (f * 100))
    ∧ (∀ (label : String) (f : ℚ),
        PercentInput.initDefault label f
          = PercentInput.init label 0 100 f FLOAT_INPUT_STEP "%f" Option.none) :=
  ⟨fun _ _ _ _ _ _ _ => ⟨rfl, rfl, rfl, rfl, rfl, rfl, rfl⟩, fun _ _ => rfl⟩

/-- Claim C7: `display_download_link` renders exactly one markdown call, with
raw HTML permitted, whose body is the anchor template
`<a download="{filename}" href="data:file/csv;base64,{csv}">Download
{filename}</a>` (inside the Python triple-quoted string's surrounding
whitespace) where `csv` is `dataframe_to_base64` of the dataframe. -/
theorem display_download_link_anchor (filename : String) (df : DataFrame) :
    display_download_link filename df
      = [ { body := "\n        <a download=\"" ++ filename ++
              "\" href=\"data:file/csv;base64," ++ dataframe_to_base64 df ++
              "\">Download " ++ filename ++ "</a>\n",
            allow_html := true } ]
    ∧ (display_download_link filename df).length = 1 :=
  ⟨rfl, rfl⟩

/-- Claim C8: `PercentInput.__init__` evaluates `value * 100.0` before
calling the parent constructor, so a `None` value raises `TypeError`; with
any non-null fraction — as at every `PercentInput` construction in
`display_sidebar` — the constructor succeeds and the error branch is
unreachable. -/
theorem PercentInput_none_value_TypeError :
    (∀ (label : String) (mn mx st : ℚ) (fmt : String) (key : Option String),
        PercentInput.initE label mn mx Option.none st fmt key
          = Except.error PyError.typeError)
    ∧ (∀ (label : String) (mn mx v st : ℚ) (fmt : String) (key : Option String),
        PercentInput.initE label mn mx (Option.some v) st fmt key
          = Except.ok (PercentInput.init label mn mx v st fmt key))
    ∧ (∀ d : Parameters,
        PercentInput.initE "Hospitalization %(total infections)" 0 100
            (Option.some d.hospitalized.rate) FLOAT_INPUT_STEP "%f" Option.none
          = Except.ok (hospitalized_pct_input d))
    ∧ (∀ d : Parameters,
        PercentInput.initE "Hospital market share (%)" (1/2) 100
            (Option.some d.market_share) FLOAT_INPUT_STEP "%f" Option.none
          = Except.ok (market_share_pct_input d)) :=
  ⟨fun _ _ _ _ _ _ => rfl, fun _ _ _ _ _ _ _ => rfl, fun _ => rfl, fun _ => rfl⟩

/-- Claim C9: `max_y_axis` in the returned `Parameters` is `None` unless the
"Set the Y-axis on graphs to a static value" checkbox — declared with no
initial value, hence unchecked by default — is checked, in which case it is
the value read from the "Y-axis static value" `NumberInput` (initial value
500, step 25). -/
theorem display_sidebar_max_y_axis (env : SidebarEnv) (d : Parameters) :
    (CheckboxInput.call env max_y_axis_set_input = false →
        (display_sidebar env d).max_y_axis = Option.none)
    ∧ (CheckboxInput.call env max_y_axis_set_input = true →
        (display_sidebar env d).max_y_axis
            = Option.some (NumberInput.call env max_y_axis_input))
    ∧ max_y_axis_set_input.value = Option.none
    ∧ max_y_axis_input.label = "Y-axis static value"
    ∧ max_y_axis_input.value = Option.some 500
    ∧ max_y_axis_input.step = Option.some 25 := by
  refine ⟨?_, ?_, rfl, rfl, rfl, rfl⟩ <;> intro h <;> simp [display_sidebar, h]

/-- Witness for C9: with the example environment the checkbox is unchecked
and `max_y_axis` is `None`. -/
theorem display_sidebar_max_y_axis_w :
    (display_sidebar envEx dEx).max_y_axis = Option.none :=
  (display_sidebar_max_y_axis envEx dEx).1 rfl

/-- Claim C10: the number interpolated for `doubling_time_t` in the
mitigation sentence is `abs(m.doubling_time_t)`, hence non-negative even in
the halving regime `m.r_t < 1` where the underlying doubling time is
negative. -/
theorem display_header_doubling_time_abs (m : Model) (p : Parameters) :
    (display_header m p).doubling_time_t = |m.doubling_time_t|
    ∧ 0 ≤ (display_header m p).doubling_time_t
    ∧ (m.r_t < 1 → 0 ≤ (display_header m p).doubling_time_t) := by
  refine ⟨rfl, ?_, fun _ => ?_⟩ <;> simp [display_header, abs_nonneg]

/-- Witness for C10 in the halving regime (`r_t = 1/2`,
`doubling_time_t = -3`): the displayed value is non-negative. -/
theorem display_header_doubling_time_abs_w :
    0 ≤ (display_header mExHalving dEx).doubling_time_t :=
  (display_header_doubling_time_abs mExHalving dEx).2.2 (by norm_num [mExHalving])

end PennChime
